import Mathlib

/-!
Shallow embedding of `blaseballPlayback.py` (BlaseballPlayback).

The recorder (`BlaseballRecorder`) is modelled as a pure state machine:
wall-clock instants become rationals (seconds), JSON documents become
structures holding the fields the script actually reads plus an opaque
remainder, and every file write becomes a returned `WrittenFile` value.
The playback side (`BlaseballStreamer`, `FileQueue`, `ArchiveQueue`) is
modelled the same way; a Python exception becomes an `Option`/flag result.
-/

/-- One entry of the `schedule` list inside a games document
(`cut_data["schedule"]`); only the two boolean flags are read by the
script, the rest of the object is kept opaque. -/
structure GameSched where
  gameComplete : Bool
  gameStart : Bool
  extra : String
deriving DecidableEq, Repr

/-- The games document `data["value"]["games"]`: the script reads
`sim.season`, `sim.day` and `schedule`; every other field is kept as an
opaque remainder so that whole-document equality (the dedup test
`cut_data != self.last_message`) is still meaningful. -/
structure Games where
  season : Int
  day : Int
  schedule : List GameSched
  extra : String
deriving DecidableEq, Repr

/-- A decoded frame `data = json.loads(message.data)`: the nested games
document `value.games` plus the update-sequence field
`value.lastUpdateTime`. -/
structure FrameData where
  games : Games
  lastUpdateTime : Int
deriving DecidableEq, Repr

/-- A recorded payload as read back by the streamer: either a full frame
or the compact integer form produced by an older revision of the
recorder. -/
inductive Payload where
  | full (d : FrameData)
  | compact (n : Int)
deriving DecidableEq, Repr

/-- One finalized recording segment: the output path and the entry list
that `json.dump` serializes. -/
structure WrittenFile where
  path : String
  entries : List (ℚ × FrameData)
deriving DecidableEq, Repr

/-- The mutable instance state of `BlaseballRecorder`. `write_calls`
counts invocations of `write` (observable as attempted file writes); it
is instrumentation and is read by no recorder code path. -/
structure RecorderState where
  filepath : String
  day_mode : Bool
  skip_days : Int
  messages : List (ℚ × FrameData)
  last_message : Option Games
  previous_day : Int
  previous_season : Int
  start_time : ℚ
  connect_attempts : Nat
  write_calls : Nat
deriving DecidableEq, Repr

/-- `BlaseballRecorder.__init__` followed by setting the day options:
empty `messages`, `last_message = {}` (modelled `none`), day and season
`-1`, zero reconnect attempts. -/
def RecorderState.init (filepath : String) (day_mode : Bool) (skip_days : Int)
    (t0 : ℚ) : RecorderState :=
  ⟨filepath, day_mode, skip_days, [], none, -1, -1, t0, 0, 0⟩

namespace BlaseballRecorder

/-- The tail of `BlaseballRecorder.write` after the day-mode gate: append
the `.errorDump` tag when in error mode, append `.stream`, and skip the
write when there are no messages. -/
def writeFile (path : String) (msgs : List (ℚ × FrameData)) (error : Bool) :
    Option WrittenFile :=
  let path := if error then path ++ ".errorDump" else path
  let path := path ++ ".stream"
  if msgs.length < 1 then none else some ⟨path, msgs⟩

/-- `BlaseballRecorder.write(messages, error)`: in day mode the write is
suppressed when no valid day was seen or a skip-days credit remains (the
credit is decremented); otherwise the season/day tag is appended to the
path. Returns the updated state and the file written, if any. -/
def write (st : RecorderState) (msgs : List (ℚ × FrameData)) (error : Bool) :
    RecorderState × Option WrittenFile :=
  let st := { st with write_calls := st.write_calls + 1 }
  if st.day_mode then
    if st.previous_day < 0 then (st, none)
    else if st.skip_days > 0 then ({ st with skip_days := st.skip_days - 1 }, none)
    else (st, writeFile
      (st.filepath ++ ".s" ++ toString st.previous_season ++ "d" ++ toString st.previous_day)
      msgs error)
  else (st, writeFile st.filepath msgs error)

/-- One iteration of the event loop in `BlaseballRecorder.listen` for a
frame decoded as `data`, arriving at wall-clock instant `now`: reset the
reconnect counter, drop the frame when `cut_data` equals `last_message`,
otherwise do the day-mode seeding/rotation and append the entry. Returns
the new state and the file written by a day rotation, if any. -/
def listenStep (st : RecorderState) (now : ℚ) (data : FrameData) :
    RecorderState × Option WrittenFile :=
  let st := { st with connect_attempts := 0 }
  let time_since_start := now - st.start_time
  let cut_data := data.games
  if some cut_data = st.last_message then (st, none)
  else
    let current_season := cut_data.season
    let current_day := cut_data.day
    if st.day_mode then
      if st.previous_day < 0 then
        ({ st with previous_day := current_day, previous_season := current_season,
                   last_message := some cut_data,
                   messages := st.messages ++ [(time_since_start, data)] }, none)
      else if current_day > st.previous_day ∨ current_season > st.previous_season then
        let wr := write st st.messages false
        ({ wr.1 with previous_day := current_day, previous_season := current_season,
                     last_message := some cut_data,
                     messages := [((0 : ℚ), data)], start_time := now }, wr.2)
      else
        ({ st with last_message := some cut_data,
                   messages := st.messages ++ [(time_since_start, data)] }, none)
    else
      ({ st with last_message := some cut_data,
                 messages := st.messages ++ [(time_since_start, data)] }, none)

/-- `BlaseballRecorder.listen`: fold `listenStep` over the timed events
of one connection, collecting the files written by day rotations. -/
def listen : RecorderState → List (ℚ × FrameData) → RecorderState × List WrittenFile
  | st, [] => (st, [])
  | st, (now, data) :: rest =>
    let r1 := listenStep st now data
    let r2 := listen r1.1 rest
    (r2.1, r1.2.toList ++ r2.2)

/-- How a single streaming connection ends: closed cleanly by the server,
or torn down by a `requests.exceptions.RequestException`. -/
inductive ConnEnd where
  | clean
  | transient
deriving DecidableEq, Repr

/-- One streaming connection: the frames it delivers (with their arrival
instants) and how it ends. -/
structure Connection where
  events : List (ℚ × FrameData)
  ending : ConnEnd
deriving DecidableEq, Repr

/-- Result of the reconnect loop of `BlaseballRecorder.record`. -/
structure LoopResult where
  state : RecorderState
  files : List WrittenFile
  sleeps : List ℚ
  used : Nat
deriving DecidableEq, Repr

/-- The reconnect loop of `BlaseballRecorder.record`: while
`connect_attempts < 5`, consume the next connection, process its frames
with `listen`, then increment the attempt counter — after sleeping
`5 * connect_attempts` seconds first when the connection ended in a
transport error. Returns the final state, the rotation files, the backoff
sleeps performed, and the number of connections consumed. -/
def recordLoop : RecorderState → List Connection → LoopResult
  | st, [] => ⟨st, [], [], 0⟩
  | st, c :: rest =>
    if st.connect_attempts < 5 then
      let r1 := listen st c.events
      match c.ending with
      | .clean =>
        let r2 := recordLoop { r1.1 with connect_attempts := r1.1.connect_attempts + 1 } rest
        ⟨r2.state, r1.2 ++ r2.files, r2.sleeps, r2.used + 1⟩
      | .transient =>
        let d := 5 * (r1.1.connect_attempts : ℚ)
        let r2 := recordLoop { r1.1 with connect_attempts := r1.1.connect_attempts + 1 } rest
        ⟨r2.state, r1.2 ++ r2.files, d :: r2.sleeps, r2.used + 1⟩
    else ⟨st, [], [], 0⟩

/-- Result of `BlaseballRecorder.record`: final state, all files written
(rotations then the final flush), the backoff sleeps, the number of
connections consumed, and the `sys.exit` status. -/
structure RecordResult where
  state : RecorderState
  files : List WrittenFile
  sleeps : List ℚ
  connectionsUsed : Nat
  exitCode : Nat
deriving DecidableEq, Repr

/-- `BlaseballRecorder.record`: note the start instant, run the reconnect
loop over the supplied connection script, then flush the remaining
messages with a normal (non-error) `write` and `sys.exit(0)`. -/
def record (st : RecorderState) (t0 : ℚ) (script : List Connection) : RecordResult :=
  let st := { st with start_time := t0 }
  let lr := recordLoop st script
  let wr := write lr.state lr.state.messages false
  ⟨wr.1, lr.files ++ wr.2.toList, lr.sleeps, lr.used, 0⟩

/-- How the `asyncio` run inside `BlaseballRecorder.start` terminates:
`record` finished on its own (raising `SystemExit(0)`), a
`KeyboardInterrupt` escaped, or some other exception escaped. -/
inductive RecordEnd where
  | exhausted
  | interrupt
  | failure
deriving DecidableEq, Repr

/-- What the process ultimately does: exit with status 0, or re-raise the
failure (non-zero exit). -/
inductive ExitStatus where
  | success
  | failurePropagated
deriving DecidableEq, Repr

/-- Result of `BlaseballRecorder.start`. -/
structure StartResult where
  state : RecorderState
  files : List WrittenFile
  status : ExitStatus
deriving DecidableEq, Repr

/-- `BlaseballRecorder.start`: wraps `record`. On `KeyboardInterrupt` the
loop state is flushed with a normal write and the process exits 0. Any
other escaping exception hits the bare `except:`, which flushes an error
dump and re-raises — note that the `SystemExit(0)` raised by `record`
itself on reconnect exhaustion is also caught by the bare `except:`
(Python's bare `except:` catches `BaseException`), so that path performs
an additional error-dump flush and then exits with status 0. -/
def start (st : RecorderState) (t0 : ℚ) (script : List Connection)
    (ending : RecordEnd) : StartResult :=
  match ending with
  | .exhausted =>
    let r := record st t0 script
    let wr := write r.state r.state.messages true
    ⟨wr.1, r.files ++ wr.2.toList, .success⟩
  | .interrupt =>
    let st0 := { st with start_time := t0 }
    let lr := recordLoop st0 script
    let wr := write lr.state lr.state.messages false
    ⟨wr.1, lr.files ++ wr.2.toList, .success⟩
  | .failure =>
    let st0 := { st with start_time := t0 }
    let lr := recordLoop st0 script
    let wr := write lr.state lr.state.messages true
    ⟨wr.1, lr.files ++ wr.2.toList, .failurePropagated⟩

end BlaseballRecorder

/-- The `FileQueue` backend: the decoded JSON array held in `_data`,
with the original loaded count remembered for `__len__`. -/
structure FileQueue where
  _data : List (ℚ × Payload)
  _original_len : Nat
deriving DecidableEq, Repr

namespace FileQueue

/-- `FileQueue.__init__`: load the whole decoded recording. -/
def load (entries : List (ℚ × Payload)) : FileQueue :=
  ⟨entries, entries.length⟩

/-- `FileQueue.is_empty`. -/
def is_empty (q : FileQueue) : Bool :=
  q._data.isEmpty

/-- `FileQueue.top`: the next entry without advancing, `None` when
exhausted. -/
def top (q : FileQueue) : Option (ℚ × Payload) :=
  q._data.head?

/-- `FileQueue.bottom`: the last entry, `None` when exhausted. -/
def bottom (q : FileQueue) : Option (ℚ × Payload) :=
  q._data.getLast?

/-- `FileQueue.pop`: the next entry (or `None`) together with the
advanced queue. -/
def pop (q : FileQueue) : Option (ℚ × Payload) × FileQueue :=
  match q._data with
  | [] => (none, q)
  | e :: rest => (some e, ⟨rest, q._original_len⟩)

/-- `FileQueue.__len__`: the original loaded count, regardless of
consumption. -/
def len (q : FileQueue) : Nat :=
  q._original_len

/-- Pop `n` times in a row. -/
def popN : FileQueue → Nat → FileQueue
  | q, 0 => q
  | q, n + 1 => popN (q.pop).2 n

end FileQueue

/-- One line of a SIBR archive as decoded by `ArchiveQueue`: a games
document carrying its absolute `clientMeta.timestamp` in milliseconds,
with the rest of the document opaque. -/
structure ArchiveDoc where
  timestampMs : ℚ
  extra : String
deriving DecidableEq, Repr

/-- The `ArchiveQueue` backend: the current lazily-decoded message, the
not-yet-decoded remainder of the gzip stream, and the first line's
timestamp. (`_start_ts` is left at `0` for an empty archive, a state in
which the Python attribute is unset but also never read.) -/
structure ArchiveQueue where
  _cur_message : Option ArchiveDoc
  _pending : List ArchiveDoc
  _start_ts : ℚ
deriving DecidableEq, Repr

namespace ArchiveQueue

/-- `ArchiveQueue._message_timestamp`: `clientMeta.timestamp / 1000`. -/
def message_timestamp (d : ArchiveDoc) : ℚ :=
  d.timestampMs / 1000

/-- `ArchiveQueue.__init__`: decode the first line and remember its
timestamp as the epoch for offset synthesis. -/
def load (lines : List ArchiveDoc) : ArchiveQueue :=
  match lines with
  | [] => ⟨none, [], 0⟩
  | l :: rest => ⟨some l, rest, message_timestamp l⟩

/-- `ArchiveQueue.is_empty`: no current message left. -/
def is_empty (q : ArchiveQueue) : Bool :=
  q._cur_message.isNone

/-- `ArchiveQueue.top`: `(0.0, None)` when exhausted, otherwise the
synthesized offset and the current message. -/
def top (q : ArchiveQueue) : ℚ × Option ArchiveDoc :=
  match q._cur_message with
  | none => (0, none)
  | some m => (message_timestamp m - q._start_ts, some m)

/-- `ArchiveQueue.bottom`: the dummy implementation, `(0.0, None)`
unconditionally. -/
def bottom (_ : ArchiveQueue) : ℚ × Option ArchiveDoc :=
  (0, none)

/-- `ArchiveQueue.pop`: returns the current entry and advances. When the
queue is already exhausted, the Python body evaluates
`self._message_timestamp(None)` and raises a `TypeError`; that raise is
modelled as `none`. -/
def pop (q : ArchiveQueue) : Option ((ℚ × ArchiveDoc) × ArchiveQueue) :=
  match q._cur_message with
  | none => none
  | some m =>
    let q2 : ArchiveQueue :=
      match q._pending with
      | [] => ⟨none, [], q._start_ts⟩
      | l :: rest => ⟨some l, rest, q._start_ts⟩
    some ((message_timestamp m - q._start_ts, m), q2)

/-- `ArchiveQueue.__len__`: the dummy implementation, constantly `1`. -/
def len (_ : ArchiveQueue) : Nat :=
  1

end ArchiveQueue

namespace BlaseballStreamer

/-- The Replay Clock: `time_since_start.total_seconds() * self.speed`. -/
def due_position (elapsed speed : ℚ) : ℚ :=
  elapsed * speed

/-- The fixed sleep of the playback loops, `asyncio.sleep(0.05)`. -/
def pollInterval : ℚ :=
  0.05

/-- The observable outcome of one iteration of a playback loop: the loop
exited (store exhausted), it slept for the poll interval, it materialized
and emitted the head entry, or the iteration raised (materializing a
compact entry with no previous full body subscripts `{}`). -/
inductive StepOut where
  | finished
  | slept (d : ℚ)
  | emitted (message : FrameData)
  | crashed
deriving DecidableEq, Repr

/-- The loop state of `start_http_playback`: the store cursor, the local
`last_message_body` (`{}` modelled as `none`), and the served
`self.http_games` cache. -/
structure HttpState where
  queue : FileQueue
  last_message_body : Option FrameData
  http_games : List GameSched
deriving DecidableEq, Repr

/-- One iteration of the while-loop of `start_http_playback` at scaled
elapsed time `due_position elapsed speed`: when the head entry is due,
materialize it (a bare integer reuses the previous full body unchanged),
publish its schedule to `http_games` and advance; otherwise sleep
`0.05`. -/
def http_playback_step (speed elapsed : ℚ) (s : HttpState) : HttpState × StepOut :=
  if s.queue.is_empty then (s, .finished)
  else
    let seconds := due_position elapsed speed
    match s.queue.top with
    | none => (s, .finished)
    | some (off, payload) =>
      if seconds ≥ off then
        match payload with
        | .compact _ =>
          match s.last_message_body with
          | none => (s, .crashed)
          | some body =>
            (⟨(s.queue.pop).2, s.last_message_body, body.games.schedule⟩, .emitted body)
        | .full d =>
          (⟨(s.queue.pop).2, some d, d.games.schedule⟩, .emitted d)
      else (s, .slept pollInterval)

/-- The loop state of the body of `handle_sse`: the store cursor and the
local `last_message_body`. -/
structure SseState where
  queue : FileQueue
  last_message_body : Option FrameData
deriving DecidableEq, Repr

/-- One iteration of the while-loop of `handle_sse` at scaled elapsed
time: when the head entry is due, materialize it — a bare integer reuses
the previous full body and grafts the integer onto its
`value.lastUpdateTime` field (mutating that shared body in place) — send
it, and advance; otherwise sleep `0.05`. -/
def handle_sse_step (speed elapsed : ℚ) (s : SseState) : SseState × StepOut :=
  if s.queue.is_empty then (s, .finished)
  else
    let seconds := due_position elapsed speed
    match s.queue.top with
    | none => (s, .finished)
    | some (off, payload) =>
      if seconds ≥ off then
        match payload with
        | .compact n =>
          match s.last_message_body with
          | none => (s, .crashed)
          | some body =>
            let message : FrameData := { body with lastUpdateTime := n }
            (⟨(s.queue.pop).2, some message⟩, .emitted message)
        | .full d =>
          (⟨(s.queue.pop).2, some d⟩, .emitted d)
      else (s, .slept pollInterval)

/-- The streamer state seen by the SSE handler: the shared store cursor
and the hand-rolled gate `self._sse_lock`. -/
structure StreamerState where
  queue : FileQueue
  sse_lock : Bool
deriving DecidableEq, Repr

/-- The exact message of the rejection raised by `handle_sse` when the
gate is already held. -/
def lockErrorText : String :=
  "Only one open stream is currently supported."

/-- The body loop of `handle_sse` with the timing abstracted away (every
entry due when examined): send up to `budget` entries, materializing
compact entries against the session-local `last_message_body` (which
starts as `{}`; a compact entry with no previous full body raises, ending
the session there). Returns the advanced cursor and the sent messages. -/
def sseSessionRun : FileQueue → Option FrameData → Nat → FileQueue × List FrameData
  | q, _, 0 => (q, [])
  | q, last, b + 1 =>
    match q.top with
    | none => (q, [])
    | some (_, .full d) =>
      let r := sseSessionRun (q.pop).2 (some d) b
      (r.1, d :: r.2)
    | some (_, .compact n) =>
      match last with
      | none => (q, [])
      | some body =>
        let m : FrameData := { body with lastUpdateTime := n }
        let r := sseSessionRun (q.pop).2 (some m) b
        (r.1, m :: r.2)

/-- Result of one call to `handle_sse`: the streamer state afterwards,
the messages sent, whether the attach was rejected, and the rejection
message if so. -/
structure SseHandleResult where
  state : StreamerState
  sent : List FrameData
  rejected : Bool
  errMsg : Option String
deriving DecidableEq, Repr

/-- `handle_sse`: reject immediately (before the `try`) when the gate is
held, leaving all state untouched; otherwise take the gate, run the
session loop — `budget` bounds how many iterations the client survives,
so a budget at least the store length models normal completion and a
smaller one models a disconnect or send error — and release the gate in
the `finally` on every exit path. -/
def handle_sse (s : StreamerState) (budget : Nat) : SseHandleResult :=
  if s.sse_lock then ⟨s, [], true, some lockErrorText⟩
  else
    let r := sseSessionRun s.queue none budget
    ⟨⟨r.1, false⟩, r.2, false, none⟩

end BlaseballStreamer

/-! Concrete sample documents used by counterexamples and witnesses. -/

/-- Sample games content for season 1 day 3. -/
def sampleGamesA : Games := ⟨1, 3, [], "a"⟩

/-- Different games content, same season 1 day 3. -/
def sampleGamesB : Games := ⟨1, 3, [], "b"⟩

/-- Games content for season 1 day 4. -/
def sampleGamesC : Games := ⟨1, 4, [], "c"⟩

/-- A frame carrying `sampleGamesA` with update sequence 3. -/
def sampleFrameA : FrameData := ⟨sampleGamesA, 3⟩

/-- A frame with content identical to `sampleFrameA` but a larger update
sequence. -/
def sampleFrameA2 : FrameData := ⟨sampleGamesA, 4⟩

/-- A frame carrying `sampleGamesB`. -/
def sampleFrameB : FrameData := ⟨sampleGamesB, 5⟩

/-- A frame carrying `sampleGamesC` (day 4). -/
def sampleFrameC : FrameData := ⟨sampleGamesC, 6⟩

/-- A recorder state that has already accepted `sampleFrameA` and has a
nonzero reconnect count; used to instantiate universally quantified
theorems. -/
def dupState : RecorderState :=
  ⟨"f", false, 0, [(1, sampleFrameA)], some sampleGamesA, -1, -1, 0, 3, 0⟩

/-- A recorder state in day mode with one buffered message and one
skip-days credit remaining. -/
def skipState : RecorderState :=
  ⟨"f", true, 1, [(0, sampleFrameA)], some sampleGamesA, 3, 1, 0, 0, 0⟩

/-- Offsets of a recorder message list. -/
def offsetsOf (msgs : List (ℚ × FrameData)) : List ℚ :=
  msgs.map Prod.fst

/-- The recorder-state invariant maintained by `listenStep` relative to
the last observed wall-clock instant `t`: the segment start does not lie
in the future, and the buffered offsets are sorted, bounded by the
elapsed time, and nonnegative. -/
structure RecI (st : RecorderState) (t : ℚ) : Prop where
  hstart : st.start_time ≤ t
  hsort : List.Chain' (· ≤ ·) (offsetsOf st.messages)
  hub : ∀ o ∈ offsetsOf st.messages, o ≤ t - st.start_time
  hnn : ∀ o ∈ offsetsOf st.messages, 0 ≤ o

/-- The buffered segment starts at offset zero (true of every segment
opened by a day rotation). -/
def headZero (msgs : List (ℚ × FrameData)) : Prop :=
  (offsetsOf msgs).head? = some 0

/-- All frame arrival instants of a connection script, in order. -/
def scriptTimes (script : List BlaseballRecorder.Connection) : List ℚ :=
  (script.map (fun c => c.events.map Prod.fst)).flatten

/-- The base of every path built by `BlaseballRecorder.write` once the
write is not suppressed: the file prefix, tagged with season and day in
day mode. -/
def writeBasePath (st : RecorderState) : String :=
  if st.day_mode then
    st.filepath ++ ".s" ++ toString st.previous_season ++ "d" ++ toString st.previous_day
  else st.filepath

/-- A playback store holding one full frame and then a compact integer
entry, as produced by the older recorder revision. -/
def sHttpC : BlaseballStreamer.HttpState :=
  ⟨FileQueue.load [(0, .full sampleFrameA), (0, .compact 7)], none, []⟩

/-- An HTTP playback state whose head entry is a compact integer and
whose last full body is `sampleFrameB`. -/
def httpW : BlaseballStreamer.HttpState :=
  ⟨FileQueue.load [(2, .compact 9)], some sampleFrameB, []⟩

/-- The SSE counterpart of `httpW`. -/
def sseW : BlaseballStreamer.SseState :=
  ⟨FileQueue.load [(2, .compact 9)], some sampleFrameB⟩

/-! Helper lemmas. -/

lemma listen_nil_eq (st : RecorderState) : BlaseballRecorder.listen st [] = (st, []) :=
  rfl

lemma recordLoop_transient_sleeps :
    ∀ (k : Nat) (st : RecorderState), st.connect_attempts + k ≤ 5 →
      (BlaseballRecorder.recordLoop st
          (List.replicate k ⟨[], .transient⟩)).sleeps
        = (List.range k).map (fun i : ℕ => (5 : ℚ) * ((st.connect_attempts + i : ℕ) : ℚ)) := by
  intro k
  induction k with
  | zero =>
    intro st _
    rfl
  | succ n ih =>
    intro st h
    have hlt : st.connect_attempts < 5 := by omega
    have hrec := ih { st with connect_attempts := st.connect_attempts + 1 }
      (show st.connect_attempts + 1 + n ≤ 5 by omega)
    simp only [List.replicate_succ, BlaseballRecorder.recordLoop, listen_nil_eq, if_pos hlt]
    simp only [hrec]
    rw [List.range_succ_eq_map]
    simp only [List.map_cons, List.map_map]
    refine congrArg₂ List.cons ?_ ?_
    · push_cast
      ring
    · apply List.map_congr_left
      intro i _
      simp only [Function.comp_apply]
      push_cast
      ring

lemma recordLoop_clean_sleeps :
    ∀ (script : List BlaseballRecorder.Connection) (st : RecorderState),
      (∀ c ∈ script, c.ending = .clean) →
      (BlaseballRecorder.recordLoop st script).sleeps = [] := by
  intro script
  induction script with
  | nil =>
    intro st _
    rfl
  | cons c rest ih =>
    intro st hc
    have hcEnd : c.ending = .clean := hc c (List.mem_cons_self c rest)
    have hrest : ∀ d ∈ rest, d.ending = BlaseballRecorder.ConnEnd.clean :=
      fun d hd => hc d (List.mem_cons_of_mem c hd)
    obtain ⟨ev, en⟩ := c
    cases en with
    | clean =>
      by_cases h5 : st.connect_attempts < 5
      · simp only [BlaseballRecorder.recordLoop, if_pos h5]
        exact ih _ hrest
      · simp [BlaseballRecorder.recordLoop, h5]
    | transient => simp at hcEnd

lemma FileQueue.popN_load :
    ∀ (n : Nat) (l : List (ℚ × Payload)) (m : Nat),
      FileQueue.popN ⟨l, m⟩ n = ⟨l.drop n, m⟩ := by
  intro n
  induction n with
  | zero =>
    intro l m
    rfl
  | succ k ih =>
    intro l m
    cases l with
    | nil =>
      simp only [FileQueue.popN, FileQueue.pop, ih, List.drop_nil]
    | cons e rest =>
      simp only [FileQueue.popN, FileQueue.pop, ih, List.drop_succ_cons]

/-! Claim C1. -/

/-- C1 counterexample: feeding the recorder two consecutive frames whose
decoded games content is bit-for-bit identical while the update-sequence
value increases leaves exactly ONE full entry in the segment — the second
frame is dropped entirely and no compact `(offset, integer)` entry is
appended, refuting the claimed full-entry-then-compact-entry shape. -/
theorem c1_counterexample :
    sampleFrameA.games = sampleFrameA2.games ∧
    sampleFrameA.lastUpdateTime < sampleFrameA2.lastUpdateTime ∧
    (BlaseballRecorder.listen (RecorderState.init "f" false 0 0)
        [(1, sampleFrameA), (2, sampleFrameA2)]).1.messages
      = [(1, sampleFrameA)] ∧
    (BlaseballRecorder.listen (RecorderState.init "f" false 0 0)
        [(1, sampleFrameA), (2, sampleFrameA2)]).2 = [] := by
  refine ⟨rfl, by decide, ?_, ?_⟩ <;>
    simp +decide [BlaseballRecorder.listen, BlaseballRecorder.listenStep,
      RecorderState.init]

/-- C1 (amended): a frame whose decoded games content equals the previous
accepted content is dropped entirely — the reconnect counter is reset but
no entry (full or compact) is appended, no file is written and no
day-rotation bookkeeping is touched; hence two consecutive frames with
identical content and increasing update-sequence values leave exactly one
full entry in the segment. (Compact integer entries are only understood
on the playback side, for recordings made by an older revision.) -/
theorem c1_theorem :
    (∀ (st : RecorderState) (now : ℚ) (d : FrameData),
      some d.games = st.last_message →
      BlaseballRecorder.listenStep st now d = ({ st with connect_attempts := 0 }, none)) ∧
    ((BlaseballRecorder.listen (RecorderState.init "f" false 0 0)
        [(1, sampleFrameA), (2, sampleFrameA2)]).1.messages
      = [(1, sampleFrameA)]) := by
  constructor
  · intro st now d h
    simp [BlaseballRecorder.listenStep, ← h]
  · simp +decide [BlaseballRecorder.listen, BlaseballRecorder.listenStep,
      RecorderState.init]

/-- C1 witness: the dedup-drop branch applied at a concrete state. -/
theorem c1_witness :
    some sampleFrameA.games = dupState.last_message ∧
    BlaseballRecorder.listenStep dupState 5 sampleFrameA
      = ({ dupState with connect_attempts := 0 }, none) :=
  ⟨by decide, c1_theorem.1 dupState 5 sampleFrameA (by decide)⟩

/-! Claim C8. -/

/-- C8 counterexample: two consecutive transient transport failures from
a fresh recorder sleep 0 seconds and then 5 seconds — not the claimed 5
and 10 — because the backoff multiplies the attempt counter before it is
incremented. -/
theorem c8_counterexample :
    (BlaseballRecorder.record (RecorderState.init "f" false 0 0) 0
        [⟨[], .transient⟩, ⟨[], .transient⟩]).sleeps = [0, 5] ∧
    ([(0 : ℚ), 5] ≠ [5, 10]) := by
  constructor
  · simp +decide [BlaseballRecorder.record, BlaseballRecorder.recordLoop,
      BlaseballRecorder.listen, RecorderState.init]
  · norm_num

/-- C8 (amended): on a transient transport error the recorder sleeps
`5 × connect_attempts` seconds using the counter value BEFORE the
increment, so `k ≤ 5` consecutive transient failures sleep
0, 5, 10, 15, 20 seconds (the first reconnect is immediate); a clean
server-side closure performs no backoff sleep at all. -/
theorem c8_theorem :
    (∀ k : Nat, k ≤ 5 →
      (BlaseballRecorder.record (RecorderState.init "f" false 0 0) 0
          (List.replicate k ⟨[], .transient⟩)).sleeps
        = (List.range k).map (fun i : ℕ => (5 : ℚ) * (i : ℚ))) ∧
    (∀ (st : RecorderState) (script : List BlaseballRecorder.Connection),
      (∀ c ∈ script, c.ending = .clean) →
      (BlaseballRecorder.recordLoop st script).sleeps = []) := by
  constructor
  · intro k hk
    have h := recordLoop_transient_sleeps k
      { RecorderState.init "f" false 0 0 with start_time := 0 }
      (show (RecorderState.init "f" false 0 0).connect_attempts + k ≤ 5 by
        simp only [RecorderState.init]
        omega)
    simp only [BlaseballRecorder.record]
    rw [h]
    apply List.map_congr_left
    intro i _
    norm_num [RecorderState.init]
  · intro st script h
    exact recordLoop_clean_sleeps script st h

/-- C8 witness: the amended backoff schedule evaluated at two transient
failures, and the no-backoff guarantee at one clean closure. -/
theorem c8_witness :
    (2 ≤ 5 ∧
      (BlaseballRecorder.record (RecorderState.init "f" false 0 0) 0
          (List.replicate 2 ⟨[], .transient⟩)).sleeps
        = (List.range 2).map (fun i : ℕ => (5 : ℚ) * (i : ℚ))) ∧
    (BlaseballRecorder.recordLoop dupState [⟨[], .clean⟩]).sleeps = [] :=
  ⟨⟨by decide, c8_theorem.1 2 (by decide)⟩,
    c8_theorem.2 dupState [⟨[], .clean⟩] (by decide)⟩

/-! Claim C10. -/

/-- C10 counterexample: popping an exhausted `ArchiveQueue` is NOT total:
after the single archive line is consumed, `pop` evaluates
`_message_timestamp(None)` and raises a `TypeError` (modelled as `none`),
refuting the claim that every cursor operation on an exhausted store
raises no exception. -/
theorem c10_counterexample :
    (ArchiveQueue.load [⟨1000, "x"⟩]).pop
      = some ((0, ⟨1000, "x"⟩), (⟨none, [], 1⟩ : ArchiveQueue)) ∧
    (⟨none, [], 1⟩ : ArchiveQueue).is_empty = true ∧
    (⟨none, [], 1⟩ : ArchiveQueue).pop = none := by
  refine ⟨?_, rfl, rfl⟩
  norm_num [ArchiveQueue.pop, ArchiveQueue.load, ArchiveQueue.message_timestamp]

/-- C10 (amended): all cursor operations on an exhausted store are total
except `ArchiveQueue.pop`, which raises (modelled `none`). `FileQueue`'s
`top`, `bottom` and `pop` return `None` once all loaded entries are
consumed while its length still reports the original loaded count;
`ArchiveQueue`'s `top` returns the sentinel `(0.0, None)` when exhausted,
its `bottom` returns `(0.0, None)` unconditionally, and its length is the
constant 1. -/
theorem c10_theorem :
    (∀ entries : List (ℚ × Payload),
      ((FileQueue.load entries).popN entries.length).is_empty = true ∧
      ((FileQueue.load entries).popN entries.length).top = none ∧
      ((FileQueue.load entries).popN entries.length).bottom = none ∧
      (((FileQueue.load entries).popN entries.length).pop).1 = none ∧
      ((FileQueue.load entries).popN entries.length).len = entries.length) ∧
    (∀ q : ArchiveQueue, q.is_empty = true →
      q.top = (0, none) ∧ q.pop = none) ∧
    (∀ q : ArchiveQueue, q.bottom = (0, none) ∧ q.len = 1) := by
  refine ⟨?_, ?_, ?_⟩
  · intro entries
    have h : (FileQueue.load entries).popN entries.length
        = ⟨entries.drop entries.length, entries.length⟩ :=
      FileQueue.popN_load entries.length entries entries.length
    rw [List.drop_length] at h
    rw [h]
    exact ⟨rfl, rfl, rfl, rfl, rfl⟩
  · intro q hq
    obtain ⟨cur, pend, ts⟩ := q
    cases cur with
    | none => exact ⟨rfl, rfl⟩
    | some m => simp [ArchiveQueue.is_empty] at hq
  · intro q
    exact ⟨rfl, rfl⟩

/-- C10 witness: the degraded-but-total operations and the raising `pop`,
evaluated on concrete exhausted stores. -/
theorem c10_witness :
    (((FileQueue.load [(0, Payload.compact 2)]).popN 1).top = none ∧
      ((FileQueue.load [(0, Payload.compact 2)]).popN 1).len = 1) ∧
    ((ArchiveQueue.load []).is_empty = true ∧ (ArchiveQueue.load []).pop = none) ∧
    (ArchiveQueue.load []).bottom = (0, none) :=
  ⟨⟨(c10_theorem.1 [(0, Payload.compact 2)]).2.1,
      (c10_theorem.1 [(0, Payload.compact 2)]).2.2.2.2⟩,
    ⟨by decide, (c10_theorem.2.1 (ArchiveQueue.load []) (by decide)).2⟩,
    (c10_theorem.2.2 (ArchiveQueue.load [])).1⟩

/-! Claim C5. -/

lemma write_calls_succ (st : RecorderState) (msgs : List (ℚ × FrameData)) (e : Bool) :
    ((BlaseballRecorder.write st msgs e).1).write_calls = st.write_calls + 1 := by
  simp only [BlaseballRecorder.write]
  split_ifs <;> rfl

lemma write_attempts_eq (st : RecorderState) (msgs : List (ℚ × FrameData)) (e : Bool) :
    ((BlaseballRecorder.write st msgs e).1).connect_attempts = st.connect_attempts := by
  simp only [BlaseballRecorder.write]
  split_ifs <;> rfl

lemma listenStep_attempts (st : RecorderState) (now : ℚ) (d : FrameData) :
    ((BlaseballRecorder.listenStep st now d).1).connect_attempts = 0 := by
  simp only [BlaseballRecorder.listenStep]
  split_ifs <;> simp [write_attempts_eq]

lemma recordLoop_noevents :
    ∀ (script : List BlaseballRecorder.Connection) (st : RecorderState),
      (∀ c ∈ script, c.events = []) →
      (BlaseballRecorder.recordLoop st script).used
          = min (5 - st.connect_attempts) script.length ∧
      (BlaseballRecorder.recordLoop st script).state.write_calls = st.write_calls ∧
      (BlaseballRecorder.recordLoop st script).state.messages = st.messages ∧
      (BlaseballRecorder.recordLoop st script).files = [] := by
  intro script
  induction script with
  | nil =>
    intro st _
    exact ⟨by simp [BlaseballRecorder.recordLoop], rfl, rfl, rfl⟩
  | cons c rest ih =>
    intro st hc
    have hce : c.events = [] := hc c (List.mem_cons_self c rest)
    have hrest : ∀ d ∈ rest, d.events = [] := fun d hd => hc d (List.mem_cons_of_mem c hd)
    obtain ⟨ev, en⟩ := c
    simp only at hce
    subst hce
    by_cases h5 : st.connect_attempts < 5
    · have hr := ih { st with connect_attempts := st.connect_attempts + 1 } hrest
      cases en with
      | clean =>
        simp only [BlaseballRecorder.recordLoop, if_pos h5, listen_nil_eq]
        refine ⟨?_, hr.2.1, hr.2.2.1, by simp [hr.2.2.2]⟩
        rw [hr.1]
        have : ({ st with connect_attempts := st.connect_attempts + 1 } :
            RecorderState).connect_attempts = st.connect_attempts + 1 := rfl
        rw [this]
        simp only [List.length_cons]
        omega
      | transient =>
        simp only [BlaseballRecorder.recordLoop, if_pos h5, listen_nil_eq]
        refine ⟨?_, hr.2.1, hr.2.2.1, by simp [hr.2.2.2]⟩
        rw [hr.1]
        have : ({ st with connect_attempts := st.connect_attempts + 1 } :
            RecorderState).connect_attempts = st.connect_attempts + 1 := rfl
        rw [this]
        simp only [List.length_cons]
        omega
    · have hused : min (5 - st.connect_attempts) (rest.length + 1) = 0 := by omega
      cases en <;>
        simp [BlaseballRecorder.recordLoop, if_neg h5, hused]

/-- C5: after 5 consecutive failed connection attempts (stream endings or
transport errors) with no successfully decoded frame in between, the
reconnect loop stops — a 6th connection is never consumed — `record`
performs exactly one (final) `write` invocation and exits with status 0;
and every successfully decoded frame resets the reconnect counter to
zero. -/
theorem c5_theorem :
    (∀ (st : RecorderState) (script : List BlaseballRecorder.Connection),
      st.connect_attempts = 0 → (∀ c ∈ script, c.events = []) → 5 ≤ script.length →
      (BlaseballRecorder.recordLoop st script).used = 5) ∧
    (∀ (fp : String) (dm : Bool) (t0 : ℚ) (script : List BlaseballRecorder.Connection),
      (∀ c ∈ script, c.events = []) → 5 ≤ script.length →
      (BlaseballRecorder.record (RecorderState.init fp dm 0 t0) t0 script).connectionsUsed = 5 ∧
      (BlaseballRecorder.record (RecorderState.init fp dm 0 t0) t0 script).exitCode = 0 ∧
      (BlaseballRecorder.record (RecorderState.init fp dm 0 t0) t0
          script).state.write_calls = 1) ∧
    (∀ (st : RecorderState) (now : ℚ) (d : FrameData),
      ((BlaseballRecorder.listenStep st now d).1).connect_attempts = 0) := by
  refine ⟨?_, ?_, listenStep_attempts⟩
  · intro st script h0 hev hlen
    have h := recordLoop_noevents script st hev
    rw [h.1, h0]
    omega
  · intro fp dm t0 script hev hlen
    have h := recordLoop_noevents script { RecorderState.init fp dm 0 t0 with start_time := t0 } hev
    have ha : ({ RecorderState.init fp dm 0 t0 with start_time := t0 } :
        RecorderState).connect_attempts = 0 := rfl
    have hw : ({ RecorderState.init fp dm 0 t0 with start_time := t0 } :
        RecorderState).write_calls = 0 := rfl
    refine ⟨?_, rfl, ?_⟩
    · simp only [BlaseballRecorder.record]
      rw [h.1, ha]
      omega
    · simp only [BlaseballRecorder.record]
      rw [write_calls_succ, h.2.1, hw]

/-- C5 witness: six consecutive clean closures with no frames consume
exactly five connections, flush once, and exit 0; a decoded frame resets
the counter of a state that had three attempts. -/
theorem c5_witness :
    ((∀ c ∈ List.replicate 6 (⟨[], .clean⟩ : BlaseballRecorder.Connection), c.events = []) ∧
      5 ≤ (List.replicate 6 (⟨[], .clean⟩ : BlaseballRecorder.Connection)).length) ∧
    (BlaseballRecorder.record (RecorderState.init "f" false 0 0) 0
        (List.replicate 6 ⟨[], .clean⟩)).connectionsUsed = 5 ∧
    (BlaseballRecorder.record (RecorderState.init "f" false 0 0) 0
        (List.replicate 6 ⟨[], .clean⟩)).exitCode = 0 ∧
    (BlaseballRecorder.record (RecorderState.init "f" false 0 0) 0
        (List.replicate 6 ⟨[], .clean⟩)).state.write_calls = 1 ∧
    ((BlaseballRecorder.listenStep dupState 5 sampleFrameB).1).connect_attempts = 0 :=
  ⟨⟨by decide, by decide⟩,
    (c5_theorem.2.1 "f" false 0 (List.replicate 6 ⟨[], .clean⟩) (by decide) (by decide)).1,
    (c5_theorem.2.1 "f" false 0 (List.replicate 6 ⟨[], .clean⟩) (by decide) (by decide)).2.1,
    (c5_theorem.2.1 "f" false 0 (List.replicate 6 ⟨[], .clean⟩) (by decide) (by decide)).2.2,
    c5_theorem.2.2 dupState 5 sampleFrameB⟩

/-! Claim C9. -/

lemma FileQueue.is_empty_false_of_top {q : FileQueue} {e : ℚ × Payload}
    (h : q.top = some e) : q.is_empty = false := by
  obtain ⟨d, m⟩ := q
  cases d with
  | nil => simp [FileQueue.top] at h
  | cons a l => rfl

/-- C9: in both replay modes the head entry of the store is emitted
exactly when the scaled elapsed wall-clock time
`due_position elapsed speed = elapsed * speed` has reached the entry's
stored offset; when the head entry is not yet due the loop sleeps one
fixed poll interval of 0.05 seconds instead of computing an exact sleep
duration. (The materialization hypothesis excludes the state where a
compact head entry meets an empty previous body, which raises in
Python.) -/
theorem c9_theorem :
    ∀ (speed elapsed off : ℚ) (p : Payload) (s : BlaseballStreamer.HttpState)
      (s2 : BlaseballStreamer.SseState),
      s.queue.top = some (off, p) → s2.queue.top = some (off, p) →
      (∀ n, p = .compact n → s.last_message_body.isSome ∧ s2.last_message_body.isSome) →
      ((∃ s1 m, BlaseballStreamer.http_playback_step speed elapsed s = (s1, .emitted m)) ↔
          BlaseballStreamer.due_position elapsed speed ≥ off) ∧
      ((∃ s1 m, BlaseballStreamer.handle_sse_step speed elapsed s2 = (s1, .emitted m)) ↔
          BlaseballStreamer.due_position elapsed speed ≥ off) ∧
      (¬ BlaseballStreamer.due_position elapsed speed ≥ off →
        BlaseballStreamer.http_playback_step speed elapsed s
            = (s, .slept BlaseballStreamer.pollInterval) ∧
        BlaseballStreamer.handle_sse_step speed elapsed s2
            = (s2, .slept BlaseballStreamer.pollInterval)) ∧
      BlaseballStreamer.pollInterval = 1 / 20 := by
  intro speed elapsed off p s s2 h1 h2 hmat
  have he1 : s.queue.is_empty = false := FileQueue.is_empty_false_of_top h1
  have he2 : s2.queue.is_empty = false := FileQueue.is_empty_false_of_top h2
  have hpoll : BlaseballStreamer.pollInterval = 1 / 20 := by
    norm_num [BlaseballStreamer.pollInterval]
  by_cases hdue : BlaseballStreamer.due_position elapsed speed ≥ off
  · have hh : ∃ s1 m, BlaseballStreamer.http_playback_step speed elapsed s
        = (s1, .emitted m) := by
      cases p with
      | full d =>
        refine ⟨⟨(s.queue.pop).2, some d, d.games.schedule⟩, d, ?_⟩
        simp [BlaseballStreamer.http_playback_step, he1, h1, hdue]
      | compact n =>
        obtain ⟨body, hbody⟩ := Option.isSome_iff_exists.mp (hmat n rfl).1
        refine ⟨⟨(s.queue.pop).2, some body, body.games.schedule⟩, body, ?_⟩
        simp [BlaseballStreamer.http_playback_step, he1, h1, hdue, hbody]
    have hs : ∃ s1 m, BlaseballStreamer.handle_sse_step speed elapsed s2
        = (s1, .emitted m) := by
      cases p with
      | full d =>
        refine ⟨⟨(s2.queue.pop).2, some d⟩, d, ?_⟩
        simp [BlaseballStreamer.handle_sse_step, he2, h2, hdue]
      | compact n =>
        obtain ⟨body, hbody⟩ := Option.isSome_iff_exists.mp (hmat n rfl).2
        refine ⟨⟨(s2.queue.pop).2, some { body with lastUpdateTime := n }⟩,
          { body with lastUpdateTime := n }, ?_⟩
        simp [BlaseballStreamer.handle_sse_step, he2, h2, hdue, hbody]
    exact ⟨iff_of_true hh hdue, iff_of_true hs hdue, fun hc => absurd hdue hc, hpoll⟩
  · have hh : BlaseballStreamer.http_playback_step speed elapsed s
        = (s, .slept BlaseballStreamer.pollInterval) := by
      simp [BlaseballStreamer.http_playback_step, he1, h1, hdue]
    have hs : BlaseballStreamer.handle_sse_step speed elapsed s2
        = (s2, .slept BlaseballStreamer.pollInterval) := by
      simp [BlaseballStreamer.handle_sse_step, he2, h2, hdue]
    refine ⟨iff_of_false ?_ hdue, iff_of_false ?_ hdue, fun _ => ⟨hh, hs⟩, hpoll⟩
    · rintro ⟨s1, m, hm⟩
      rw [hh] at hm
      exact absurd (congrArg Prod.snd hm) (by simp)
    · rintro ⟨s1, m, hm⟩
      rw [hs] at hm
      exact absurd (congrArg Prod.snd hm) (by simp)

/-- C9 witness: the due-check evaluated at a concrete compact head entry
with offset 2 at scaled elapsed time 2. -/
theorem c9_witness :
    (httpW.queue.top = some (2, .compact 9) ∧ sseW.queue.top = some (2, .compact 9)) ∧
    ((∃ s1 m, BlaseballStreamer.http_playback_step 1 2 httpW = (s1, .emitted m)) ↔
        BlaseballStreamer.due_position 2 1 ≥ 2) ∧
    ((∃ s1 m, BlaseballStreamer.handle_sse_step 1 2 sseW = (s1, .emitted m)) ↔
        BlaseballStreamer.due_position 2 1 ≥ 2) ∧
    (¬ BlaseballStreamer.due_position 2 1 ≥ 2 →
      BlaseballStreamer.http_playback_step 1 2 httpW
          = (httpW, .slept BlaseballStreamer.pollInterval) ∧
      BlaseballStreamer.handle_sse_step 1 2 sseW
          = (sseW, .slept BlaseballStreamer.pollInterval)) ∧
    BlaseballStreamer.pollInterval = 1 / 20 :=
  ⟨⟨rfl, rfl⟩,
    c9_theorem 1 2 2 (.compact 9) httpW sseW rfl rfl
      (fun _ _ => ⟨rfl, rfl⟩)⟩

/-! Claim C2. -/

/-- C2 counterexample: with a store holding a full frame followed by the
compact integer 7, the HTTP poll loop materializes the compact entry as
the previous full body UNCHANGED — the emitted payload still carries
update-sequence 3, not 7 — so the HTTP mode does not graft the integer
onto `value.lastUpdateTime` as the claim asserts of both modes. -/
theorem c2_counterexample :
    (BlaseballStreamer.http_playback_step 1 1
        ((BlaseballStreamer.http_playback_step 1 1 sHttpC).1)).2
      = .emitted sampleFrameA ∧
    sampleFrameA.lastUpdateTime = 3 ∧ ((3 : Int) ≠ 7) := by
  refine ⟨?_, rfl, by decide⟩
  norm_num [BlaseballStreamer.http_playback_step, sHttpC, FileQueue.load,
    FileQueue.is_empty, FileQueue.top, FileQueue.pop, BlaseballStreamer.due_position]

/-- C2 (amended): when a compact integer entry is due, the SSE broadcast
loop reuses the last full payload's body and grafts the integer onto its
`value.lastUpdateTime` field (also updating the retained body), while the
HTTP poll loop reuses the last full payload's body unchanged — without
grafting — and exposes only its schedule. -/
theorem c2_theorem :
    ∀ (speed elapsed off : ℚ) (n : Int) (s : BlaseballStreamer.HttpState)
      (s2 : BlaseballStreamer.SseState) (body body2 : FrameData),
      s.queue.top = some (off, .compact n) → s.last_message_body = some body →
      s2.queue.top = some (off, .compact n) → s2.last_message_body = some body2 →
      BlaseballStreamer.due_position elapsed speed ≥ off →
      BlaseballStreamer.http_playback_step speed elapsed s
          = (⟨(s.queue.pop).2, some body, body.games.schedule⟩, .emitted body) ∧
      BlaseballStreamer.handle_sse_step speed elapsed s2
          = (⟨(s2.queue.pop).2, some { body2 with lastUpdateTime := n }⟩,
             .emitted { body2 with lastUpdateTime := n }) := by
  intro speed elapsed off n s s2 body body2 h1 hb1 h2 hb2 hdue
  have he1 : s.queue.is_empty = false := FileQueue.is_empty_false_of_top h1
  have he2 : s2.queue.is_empty = false := FileQueue.is_empty_false_of_top h2
  constructor
  · simp [BlaseballStreamer.http_playback_step, he1, h1, hb1, hdue]
  · simp [BlaseballStreamer.handle_sse_step, he2, h2, hb2, hdue]

/-- C2 witness: the compact entry `(2, 9)` materialized at scaled elapsed
time 2 against last full body `sampleFrameB` in both modes. -/
theorem c2_witness :
    (httpW.queue.top = some (2, .compact 9) ∧ httpW.last_message_body = some sampleFrameB ∧
      sseW.queue.top = some (2, .compact 9) ∧ sseW.last_message_body = some sampleFrameB ∧
      BlaseballStreamer.due_position 2 1 ≥ 2) ∧
    BlaseballStreamer.http_playback_step 1 2 httpW
        = (⟨(httpW.queue.pop).2, some sampleFrameB, sampleFrameB.games.schedule⟩,
           .emitted sampleFrameB) ∧
    BlaseballStreamer.handle_sse_step 1 2 sseW
        = (⟨(sseW.queue.pop).2, some { sampleFrameB with lastUpdateTime := 9 }⟩,
           .emitted { sampleFrameB with lastUpdateTime := 9 }) :=
  ⟨⟨rfl, rfl, rfl, rfl, by norm_num [BlaseballStreamer.due_position]⟩,
    c2_theorem 1 2 2 9 httpW sseW sampleFrameB sampleFrameB rfl rfl rfl rfl
      (by norm_num [BlaseballStreamer.due_position])⟩

/-! Claim C6. -/

lemma sseSessionRun_full :
    ∀ (b : Nat) (entries : List (ℚ × FrameData)) (last : Option FrameData) (m : Nat),
      BlaseballStreamer.sseSessionRun ⟨entries.map (fun e => (e.1, Payload.full e.2)), m⟩ last b
        = (⟨(entries.drop b).map (fun e => (e.1, Payload.full e.2)), m⟩,
           (entries.take b).map Prod.snd) := by
  intro b
  induction b with
  | zero =>
    intro entries last m
    simp [BlaseballStreamer.sseSessionRun]
  | succ n ih =>
    intro entries last m
    cases entries with
    | nil => simp [BlaseballStreamer.sseSessionRun, FileQueue.top]
    | cons e rest =>
      simp [BlaseballStreamer.sseSessionRun, FileQueue.top, FileQueue.pop, ih]

/-- C6: at most one SSE consumer is attached at a time — an attach
attempt while the gate is held is rejected immediately with the exact
error message the code raises, without touching the queue or the gate;
the gate is released on every exit path of an accepted session (the
budget models normal completion, client disconnect and internal error
alike); and a later attach resumes the traversal from the store's
current, already-advanced cursor position rather than from the
beginning. -/
theorem c6_theorem :
    (∀ (s : BlaseballStreamer.StreamerState) (b : Nat), s.sse_lock = true →
      BlaseballStreamer.handle_sse s b
        = ⟨s, [], true, some BlaseballStreamer.lockErrorText⟩) ∧
    (∀ (s : BlaseballStreamer.StreamerState) (b : Nat), s.sse_lock = false →
      (BlaseballStreamer.handle_sse s b).state.sse_lock = false) ∧
    (∀ (entries : List (ℚ × FrameData)) (k big : Nat), entries.length ≤ big →
      (BlaseballStreamer.handle_sse
          ⟨FileQueue.load (entries.map (fun e => (e.1, Payload.full e.2))), false⟩ k).sent
        = (entries.take k).map Prod.snd ∧
      (BlaseballStreamer.handle_sse
          (BlaseballStreamer.handle_sse
            ⟨FileQueue.load (entries.map (fun e => (e.1, Payload.full e.2))), false⟩ k).state
          big).rejected = false ∧
      (BlaseballStreamer.handle_sse
          (BlaseballStreamer.handle_sse
            ⟨FileQueue.load (entries.map (fun e => (e.1, Payload.full e.2))), false⟩ k).state
          big).sent
        = (entries.drop k).map Prod.snd) := by
  refine ⟨?_, ?_, ?_⟩
  · intro s b hlock
    simp [BlaseballStreamer.handle_sse, hlock]
  · intro s b hlock
    simp [BlaseballStreamer.handle_sse, hlock]
  · intro entries k big hbig
    have h1 := sseSessionRun_full k entries none entries.length
    have h2 := sseSessionRun_full big (entries.drop k) none entries.length
    have htake : (entries.drop k).take big = entries.drop k :=
      List.take_of_length_le (by simp; omega)
    rw [htake] at h2
    simp only [List.map_drop, List.map_take] at h1 h2
    refine ⟨?_, ?_, ?_⟩ <;>
      simp [BlaseballStreamer.handle_sse, FileQueue.load, List.length_map, h1, h2]

/-- C6 witness: a held gate rejects a concrete attach untouched; a free
gate is released; and after a first session consumes one of two entries,
a second attach sends exactly the remaining entry. -/
theorem c6_witness :
    ((⟨FileQueue.load [(0, .full sampleFrameA)], true⟩ :
        BlaseballStreamer.StreamerState).sse_lock = true ∧
      BlaseballStreamer.handle_sse ⟨FileQueue.load [(0, .full sampleFrameA)], true⟩ 3
        = ⟨⟨FileQueue.load [(0, .full sampleFrameA)], true⟩, [], true,
           some BlaseballStreamer.lockErrorText⟩) ∧
    (BlaseballStreamer.handle_sse ⟨FileQueue.load [(0, .full sampleFrameA)], false⟩ 3).state.sse_lock
      = false ∧
    ((2 ≤ 2) ∧
      (BlaseballStreamer.handle_sse
          ⟨FileQueue.load ([(0, sampleFrameA), (1, sampleFrameB)].map
            (fun e => (e.1, Payload.full e.2))), false⟩ 1).sent
        = ([((0 : ℚ), sampleFrameA), (1, sampleFrameB)].take 1).map Prod.snd ∧
      (BlaseballStreamer.handle_sse
          (BlaseballStreamer.handle_sse
            ⟨FileQueue.load ([(0, sampleFrameA), (1, sampleFrameB)].map
              (fun e => (e.1, Payload.full e.2))), false⟩ 1).state 2).rejected = false ∧
      (BlaseballStreamer.handle_sse
          (BlaseballStreamer.handle_sse
            ⟨FileQueue.load ([(0, sampleFrameA), (1, sampleFrameB)].map
              (fun e => (e.1, Payload.full e.2))), false⟩ 1).state 2).sent
        = ([((0 : ℚ), sampleFrameA), (1, sampleFrameB)].drop 1).map Prod.snd) :=
  ⟨⟨rfl, c6_theorem.1 ⟨FileQueue.load [(0, .full sampleFrameA)], true⟩ 3 rfl⟩,
    c6_theorem.2.1 ⟨FileQueue.load [(0, .full sampleFrameA)], false⟩ 3 rfl,
    ⟨by omega,
      c6_theorem.2.2 [(0, sampleFrameA), (1, sampleFrameB)] 1 2 (by simp)⟩⟩

/-! Claim C4. -/

lemma errorDump_path_ne (base : String) :
    base ++ ".errorDump" ++ ".stream" ≠ base ++ ".stream" := by
  intro h
  have hl := congrArg String.length h
  rw [String.length_append, String.length_append, String.length_append] at hl
  have h10 : (".errorDump" : String).length = 10 := rfl
  have h7 : (".stream" : String).length = 7 := rfl
  rw [h10, h7] at hl
  omega

lemma write_norm_and_error (st1 : RecorderState) (msgs : List (ℚ × FrameData))
    (hm : msgs ≠ [])
    (hperm : st1.day_mode = false ∨ (0 ≤ st1.previous_day ∧ st1.skip_days ≤ 0)) :
    (BlaseballRecorder.write st1 msgs false).2
        = some ⟨writeBasePath st1 ++ ".stream", msgs⟩ ∧
    (BlaseballRecorder.write st1 msgs true).2
        = some ⟨writeBasePath st1 ++ ".errorDump" ++ ".stream", msgs⟩ := by
  have hlen : ¬ msgs.length < 1 := by
    have := List.length_pos.mpr hm
    omega
  by_cases hdm : st1.day_mode = true
  · have hps : 0 ≤ st1.previous_day ∧ st1.skip_days ≤ 0 := by
      rcases hperm with h | h
      · rw [hdm] at h
        exact absurd h (by simp)
      · exact h
    have h1 : ¬ st1.previous_day < 0 := by omega
    have h2 : ¬ st1.skip_days > 0 := by omega
    constructor <;>
      simp [BlaseballRecorder.write, BlaseballRecorder.writeFile, writeBasePath,
        hdm, h1, h2, hlen, String.append_assoc]
  · have hdm2 : st1.day_mode = false := by
      cases hb : st1.day_mode
      · rfl
      · exact absurd hb hdm
    constructor <;>
      simp [BlaseballRecorder.write, BlaseballRecorder.writeFile, writeBasePath,
        hdm2, hlen, String.append_assoc]

/-- C4 counterexample: a day-mode recorder with one buffered message and
one pending skip-days credit loses its buffer on BOTH exit paths — the
error-dump flush and the interrupt flush are suppressed by the skip-days
gate, so no file is written — refuting the claim that no buffered entries
are lost on the exit path. -/
theorem c4_counterexample :
    skipState.messages ≠ [] ∧
    (BlaseballRecorder.start skipState 0 [] .failure).files = [] ∧
    (BlaseballRecorder.start skipState 0 [] .interrupt).files = [] := by
  refine ⟨by simp [skipState], ?_, ?_⟩ <;>
    norm_num [BlaseballRecorder.start, BlaseballRecorder.recordLoop,
      BlaseballRecorder.write, skipState]

/-- C4 (amended): an operator interrupt flushes the loop state with a
normal (non-error) write and exits with success status; any other
unhandled failure flushes an error dump whose path carries the
`.errorDump` suffix — and therefore never equals the normal segment path
— and propagates for a non-zero exit. The flush preserves all buffered
entries PROVIDED the day-mode bookkeeping permits the write (entries
nonempty, and in day mode a valid day seen with no skip-days credit
pending); a pending skip-days credit suppresses the flush and drops the
buffer. -/
theorem c4_theorem :
    (∀ (st : RecorderState) (t0 : ℚ) (script : List BlaseballRecorder.Connection),
      (BlaseballRecorder.start st t0 script .interrupt).status = .success) ∧
    (∀ (st : RecorderState) (t0 : ℚ) (script : List BlaseballRecorder.Connection),
      (BlaseballRecorder.start st t0 script .failure).status = .failurePropagated) ∧
    (∀ (st : RecorderState) (t0 : ℚ) (script : List BlaseballRecorder.Connection),
      (BlaseballRecorder.recordLoop { st with start_time := t0 } script).state.messages ≠ [] →
      ((BlaseballRecorder.recordLoop { st with start_time := t0 } script).state.day_mode = false ∨
        (0 ≤ (BlaseballRecorder.recordLoop { st with start_time := t0 } script).state.previous_day ∧
          (BlaseballRecorder.recordLoop { st with start_time := t0 } script).state.skip_days ≤ 0)) →
      (BlaseballRecorder.start st t0 script .interrupt).files.getLast?
          = some ⟨writeBasePath
              (BlaseballRecorder.recordLoop { st with start_time := t0 } script).state ++ ".stream",
            (BlaseballRecorder.recordLoop { st with start_time := t0 } script).state.messages⟩ ∧
      (BlaseballRecorder.start st t0 script .failure).files.getLast?
          = some ⟨writeBasePath
              (BlaseballRecorder.recordLoop { st with start_time := t0 } script).state
                ++ ".errorDump" ++ ".stream",
            (BlaseballRecorder.recordLoop { st with start_time := t0 } script).state.messages⟩ ∧
      writeBasePath (BlaseballRecorder.recordLoop { st with start_time := t0 } script).state
          ++ ".errorDump" ++ ".stream"
        ≠ writeBasePath
            (BlaseballRecorder.recordLoop { st with start_time := t0 } script).state
          ++ ".stream") := by
  refine ⟨fun st t0 script => rfl, fun st t0 script => rfl, ?_⟩
  intro st t0 script hm hperm
  obtain ⟨hbw, hbe⟩ := write_norm_and_error
    (BlaseballRecorder.recordLoop { st with start_time := t0 } script).state
    (BlaseballRecorder.recordLoop { st with start_time := t0 } script).state.messages hm hperm
  refine ⟨?_, ?_, errorDump_path_ne _⟩
  · simp only [BlaseballRecorder.start, hbw, Option.toList_some, List.getLast?_concat]
  · simp only [BlaseballRecorder.start, hbe, Option.toList_some, List.getLast?_concat]

/-- C4 witness: the two exit paths evaluated at a non-day-mode recorder
state holding one buffered message. -/
theorem c4_witness :
    ((BlaseballRecorder.recordLoop { dupState with start_time := 0 } []).state.messages ≠ [] ∧
      (BlaseballRecorder.recordLoop { dupState with start_time := 0 } []).state.day_mode = false) ∧
    (BlaseballRecorder.start dupState 0 [] .interrupt).status = .success ∧
    (BlaseballRecorder.start dupState 0 [] .failure).status = .failurePropagated ∧
    (BlaseballRecorder.start dupState 0 [] .interrupt).files.getLast?
        = some ⟨writeBasePath (BlaseballRecorder.recordLoop { dupState with start_time := 0 } []).state
            ++ ".stream",
          (BlaseballRecorder.recordLoop { dupState with start_time := 0 } []).state.messages⟩ ∧
    (BlaseballRecorder.start dupState 0 [] .failure).files.getLast?
        = some ⟨writeBasePath (BlaseballRecorder.recordLoop { dupState with start_time := 0 } []).state
            ++ ".errorDump" ++ ".stream",
          (BlaseballRecorder.recordLoop { dupState with start_time := 0 } []).state.messages⟩ :=
  ⟨⟨by simp [BlaseballRecorder.recordLoop, dupState], rfl⟩,
    c4_theorem.1 dupState 0 [],
    c4_theorem.2.1 dupState 0 [],
    (c4_theorem.2.2 dupState 0 [] (by simp [BlaseballRecorder.recordLoop, dupState])
      (Or.inl rfl)).1,
    (c4_theorem.2.2 dupState 0 [] (by simp [BlaseballRecorder.recordLoop, dupState])
      (Or.inl rfl)).2.1⟩

/-! Claims C3 and C7: invariant machinery. -/

lemma mem_of_mem_getLast? {α : Type} {l : List α} {a : α} (h : a ∈ l.getLast?) : a ∈ l := by
  obtain ⟨hne, rfl⟩ := List.mem_getLast?_eq_getLast h
  exact List.getLast_mem hne

lemma getLast?_cons_eq_getLastD {α : Type} :
    ∀ (l : List α) (t : α), (t :: l).getLast? = some (l.getLastD t)
  | [], _ => rfl
  | x :: xs, t => by
    rw [List.getLast?_cons_cons, getLast?_cons_eq_getLastD xs x, List.getLastD_cons]

lemma listenStep_skip {st : RecorderState} {now : ℚ} {d : FrameData}
    (h : some d.games = st.last_message) :
    BlaseballRecorder.listenStep st now d = ({ st with connect_attempts := 0 }, none) := by
  simp [BlaseballRecorder.listenStep, ← h]

lemma listenStep_seed {st : RecorderState} {now : ℚ} {d : FrameData}
    (h : ¬ some d.games = st.last_message) (hdm : st.day_mode = true)
    (hprev : st.previous_day < 0) :
    BlaseballRecorder.listenStep st now d
      = ({ st with
            connect_attempts := 0, previous_day := d.games.day,
            previous_season := d.games.season, last_message := some d.games,
            messages := st.messages ++ [(now - st.start_time, d)] }, none) := by
  simp [BlaseballRecorder.listenStep, h, hdm, hprev]

lemma listenStep_rotate {st : RecorderState} {now : ℚ} {d : FrameData}
    (h : ¬ some d.games = st.last_message) (hdm : st.day_mode = true)
    (hprev : ¬ st.previous_day < 0)
    (hgt : d.games.day > st.previous_day ∨ d.games.season > st.previous_season) :
    BlaseballRecorder.listenStep st now d
      = ({ (BlaseballRecorder.write { st with connect_attempts := 0 }
              st.messages false).1 with
              previous_day := d.games.day, previous_season := d.games.season,
              last_message := some d.games, messages := [((0 : ℚ), d)],
              start_time := now },
         (BlaseballRecorder.write { st with connect_attempts := 0 }
            st.messages false).2) := by
  simp [BlaseballRecorder.listenStep, h, hdm, hprev, hgt]

lemma listenStep_append_day {st : RecorderState} {now : ℚ} {d : FrameData}
    (h : ¬ some d.games = st.last_message) (hdm : st.day_mode = true)
    (hprev : ¬ st.previous_day < 0)
    (hgt : ¬ (d.games.day > st.previous_day ∨ d.games.season > st.previous_season)) :
    BlaseballRecorder.listenStep st now d
      = ({ st with
            connect_attempts := 0, last_message := some d.games,
            messages := st.messages ++ [(now - st.start_time, d)] }, none) := by
  simp [BlaseballRecorder.listenStep, h, hdm, hprev, hgt]

lemma listenStep_append_plain {st : RecorderState} {now : ℚ} {d : FrameData}
    (h : ¬ some d.games = st.last_message) (hdm : st.day_mode = false) :
    BlaseballRecorder.listenStep st now d
      = ({ st with
            connect_attempts := 0, last_message := some d.games,
            messages := st.messages ++ [(now - st.start_time, d)] }, none) := by
  simp [BlaseballRecorder.listenStep, h, hdm]

lemma write_entries_of_some {st : RecorderState} {msgs : List (ℚ × FrameData)}
    {e : Bool} {f : WrittenFile}
    (h : (BlaseballRecorder.write st msgs e).2 = some f) : f.entries = msgs := by
  simp only [BlaseballRecorder.write, BlaseballRecorder.writeFile] at h
  split_ifs at h <;> simp only [reduceCtorEq, Option.some.injEq] at h <;>
    exact h ▸ rfl

lemma listenStep_spec (st : RecorderState) (now : ℚ) (d : FrameData) (t : ℚ)
    (hI : RecI st t) (hle : t ≤ now) :
    RecI (BlaseballRecorder.listenStep st now d).1 now ∧
    (∀ f, (BlaseballRecorder.listenStep st now d).2 = some f → f.entries = st.messages) ∧
    ((BlaseballRecorder.listenStep st now d).2.isSome = true →
      headZero (BlaseballRecorder.listenStep st now d).1.messages) ∧
    (headZero st.messages → headZero (BlaseballRecorder.listenStep st now d).1.messages) := by
  have hstart2 : st.start_time ≤ now := le_trans hI.hstart hle
  have hub2 : ∀ o ∈ offsetsOf st.messages, o ≤ now - st.start_time := fun o ho =>
    le_trans (hI.hub o ho) (sub_le_sub_right hle st.start_time)
  have happend_sort :
      List.Chain' (· ≤ ·) (offsetsOf (st.messages ++ [(now - st.start_time, d)])) := by
    unfold offsetsOf
    rw [List.map_append, List.chain'_append]
    refine ⟨hI.hsort, List.chain'_singleton _, ?_⟩
    intro x hx y hy
    simp only [List.map_cons, List.map_nil, List.head?_cons, Option.mem_def,
      Option.some.injEq] at hy
    subst hy
    exact hub2 x (mem_of_mem_getLast? hx)
  have happend_ub :
      ∀ o ∈ offsetsOf (st.messages ++ [(now - st.start_time, d)]),
        o ≤ now - st.start_time := by
    intro o ho
    unfold offsetsOf at ho
    rw [List.map_append, List.mem_append] at ho
    rcases ho with ho | ho
    · exact hub2 o ho
    · simp only [List.map_cons, List.map_nil, List.mem_singleton] at ho
      subst ho
      exact le_refl _
  have happend_nn :
      ∀ o ∈ offsetsOf (st.messages ++ [(now - st.start_time, d)]), 0 ≤ o := by
    intro o ho
    unfold offsetsOf at ho
    rw [List.map_append, List.mem_append] at ho
    rcases ho with ho | ho
    · exact hI.hnn o ho
    · simp only [List.map_cons, List.map_nil, List.mem_singleton] at ho
      subst ho
      exact sub_nonneg.mpr hstart2
  have hhz_append : headZero st.messages →
      headZero (st.messages ++ [(now - st.start_time, d)]) := by
    unfold headZero offsetsOf
    rw [List.map_append, List.head?_append]
    intro h
    rw [h]
    rfl
  by_cases hdup : some d.games = st.last_message
  · rw [listenStep_skip hdup]
    refine ⟨⟨hstart2, hI.hsort, hub2, hI.hnn⟩, ?_, ?_, ?_⟩
    · intro f hf
      exact absurd hf (by simp)
    · intro hs
      simp at hs
    · intro h
      exact h
  · by_cases hdm : st.day_mode = true
    · by_cases hprev : st.previous_day < 0
      · rw [listenStep_seed hdup hdm hprev]
        refine ⟨⟨hstart2, happend_sort, happend_ub, happend_nn⟩, ?_, ?_, hhz_append⟩
        · intro f hf
          exact absurd hf (by simp)
        · intro hs
          simp at hs
      · by_cases hgt : d.games.day > st.previous_day ∨ d.games.season > st.previous_season
        · rw [listenStep_rotate hdup hdm hprev hgt]
          refine ⟨⟨le_refl now, List.chain'_singleton _, ?_, ?_⟩, ?_, ?_, ?_⟩
          · intro o ho
            simp only [offsetsOf, List.map_cons, List.map_nil, List.mem_singleton] at ho
            subst ho
            simp
          · intro o ho
            simp only [offsetsOf, List.map_cons, List.map_nil, List.mem_singleton] at ho
            subst ho
            exact le_refl 0
          · intro f hf
            exact write_entries_of_some hf
          · intro _
            rfl
          · intro _
            rfl
        · rw [listenStep_append_day hdup hdm hprev hgt]
          refine ⟨⟨hstart2, happend_sort, happend_ub, happend_nn⟩, ?_, ?_, hhz_append⟩
          · intro f hf
            exact absurd hf (by simp)
          · intro hs
            simp at hs
    · have hdm2 : st.day_mode = false := by
        cases hb : st.day_mode
        · rfl
        · exact absurd hb hdm
      rw [listenStep_append_plain hdup hdm2]
      refine ⟨⟨hstart2, happend_sort, happend_ub, happend_nn⟩, ?_, ?_, hhz_append⟩
      · intro f hf
        exact absurd hf (by simp)
      · intro hs
        simp at hs

lemma listen_spec :
    ∀ (events : List (ℚ × FrameData)) (st : RecorderState) (t : ℚ),
      RecI st t → List.Chain' (· ≤ ·) (t :: events.map Prod.fst) →
      RecI (BlaseballRecorder.listen st events).1 ((events.map Prod.fst).getLastD t) ∧
      (∀ f ∈ (BlaseballRecorder.listen st events).2,
        List.Chain' (· ≤ ·) (offsetsOf f.entries) ∧ ∀ o ∈ offsetsOf f.entries, 0 ≤ o) ∧
      (headZero st.messages →
        ∀ f ∈ (BlaseballRecorder.listen st events).2, headZero f.entries) ∧
      (∀ f ∈ ((BlaseballRecorder.listen st events).2).tail, headZero f.entries) ∧
      ((BlaseballRecorder.listen st events).2 ≠ [] →
        headZero (BlaseballRecorder.listen st events).1.messages) ∧
      (headZero st.messages → headZero (BlaseballRecorder.listen st events).1.messages) := by
  intro events
  induction events with
  | nil =>
    intro st t hI _
    refine ⟨hI, ?_, ?_, ?_, ?_, fun h => h⟩
    · intro f hf
      exact absurd hf (by simp [BlaseballRecorder.listen])
    · intro _ f hf
      exact absurd hf (by simp [BlaseballRecorder.listen])
    · intro f hf
      exact absurd hf (by simp [BlaseballRecorder.listen])
    · intro h
      exact absurd rfl h
  | cons e rest ih =>
    obtain ⟨now, d⟩ := e
    intro st t hI hchain
    rw [List.map_cons, List.chain'_cons] at hchain
    obtain ⟨hle, hchain2⟩ := hchain
    have hs := listenStep_spec st now d t hI hle
    have hrec := ih (BlaseballRecorder.listenStep st now d).1 now hs.1 hchain2
    have heq : BlaseballRecorder.listen st ((now, d) :: rest)
        = ((BlaseballRecorder.listen (BlaseballRecorder.listenStep st now d).1 rest).1,
           (BlaseballRecorder.listenStep st now d).2.toList
             ++ (BlaseballRecorder.listen (BlaseballRecorder.listenStep st now d).1 rest).2) :=
      rfl
    rw [heq]
    have hgd : List.getLastD (((now, d) :: rest).map Prod.fst) t
        = List.getLastD (rest.map Prod.fst) now := by
      rw [List.map_cons, List.getLastD_cons]
    refine ⟨?_, ?_, ?_, ?_, ?_, ?_⟩
    · rw [hgd]
      exact hrec.1
    · intro f hf
      rw [List.mem_append] at hf
      rcases hf with hf | hf
      · rw [Option.mem_toList, Option.mem_def] at hf
        have hent := hs.2.1 f hf
        rw [hent]
        exact ⟨hI.hsort, hI.hnn⟩
      · exact hrec.2.1 f hf
    · intro hz0 f hf
      rw [List.mem_append] at hf
      rcases hf with hf | hf
      · rw [Option.mem_toList, Option.mem_def] at hf
        rw [hs.2.1 f hf]
        exact hz0
      · exact hrec.2.2.1 (hs.2.2.2 hz0) f hf
    · rcases ho : (BlaseballRecorder.listenStep st now d).2 with _ | f0
      · intro f hf
        simp only [ho, Option.toList_none, List.nil_append] at hf
        exact hrec.2.2.2.1 f hf
      · intro f hf
        simp only [ho, Option.toList_some, List.cons_append, List.tail_cons] at hf
        have hz1 : headZero (BlaseballRecorder.listenStep st now d).1.messages :=
          hs.2.2.1 (by rw [ho]; rfl)
        exact hrec.2.2.1 hz1 f hf
    · intro hne
      rcases ho : (BlaseballRecorder.listenStep st now d).2 with _ | f0
      · rw [ho, Option.toList_none, List.nil_append] at hne
        exact hrec.2.2.2.2.1 hne
      · have hz1 : headZero (BlaseballRecorder.listenStep st now d).1.messages :=
          hs.2.2.1 (by rw [ho]; rfl)
        exact hrec.2.2.2.2.2 hz1
    · intro hz0
      exact hrec.2.2.2.2.2 (hs.2.2.2 hz0)

lemma chain'_cons_append_split {t : ℚ} {l1 l2 : List ℚ}
    (h : List.Chain' (· ≤ ·) (t :: (l1 ++ l2))) :
    List.Chain' (· ≤ ·) (t :: l1) ∧ List.Chain' (· ≤ ·) (l1.getLastD t :: l2) := by
  have h2 : List.Chain' (· ≤ ·) ((t :: l1) ++ l2) := by rwa [List.cons_append]
  rw [List.chain'_append] at h2
  obtain ⟨ha, hb, hc⟩ := h2
  refine ⟨ha, ?_⟩
  rw [List.chain'_cons']
  refine ⟨?_, hb⟩
  intro y hy
  exact hc _ (by simp [Option.mem_def, getLast?_cons_eq_getLastD]) y hy

lemma scriptTimes_cons (c : BlaseballRecorder.Connection)
    (rest : List BlaseballRecorder.Connection) :
    scriptTimes (c :: rest) = c.events.map Prod.fst ++ scriptTimes rest := by
  simp [scriptTimes]

lemma recordLoop_spec :
    ∀ (script : List BlaseballRecorder.Connection) (st : RecorderState) (t : ℚ),
      RecI st t → List.Chain' (· ≤ ·) (t :: scriptTimes script) →
      (∃ t2, RecI (BlaseballRecorder.recordLoop st script).state t2) ∧
      (∀ f ∈ (BlaseballRecorder.recordLoop st script).files,
        List.Chain' (· ≤ ·) (offsetsOf f.entries) ∧ ∀ o ∈ offsetsOf f.entries, 0 ≤ o) ∧
      (headZero st.messages →
        ∀ f ∈ (BlaseballRecorder.recordLoop st script).files, headZero f.entries) ∧
      (∀ f ∈ ((BlaseballRecorder.recordLoop st script).files).tail, headZero f.entries) ∧
      ((BlaseballRecorder.recordLoop st script).files ≠ [] →
        headZero (BlaseballRecorder.recordLoop st script).state.messages) ∧
      (headZero st.messages →
        headZero (BlaseballRecorder.recordLoop st script).state.messages) := by
  intro script
  induction script with
  | nil =>
    intro st t hI _
    refine ⟨⟨t, hI⟩, ?_, ?_, ?_, ?_, fun h => h⟩
    · intro f hf
      exact absurd hf (by simp [BlaseballRecorder.recordLoop])
    · intro _ f hf
      exact absurd hf (by simp [BlaseballRecorder.recordLoop])
    · intro f hf
      exact absurd hf (by simp [BlaseballRecorder.recordLoop])
    · intro h
      exact absurd rfl h
  | cons c rest ih =>
    obtain ⟨ev, en⟩ := c
    intro st t hI hchain
    rw [scriptTimes_cons] at hchain
    obtain ⟨hc1, hc2⟩ := chain'_cons_append_split hchain
    by_cases h5 : st.connect_attempts < 5
    · have L := listen_spec ev st t hI hc1
      have hI2 : RecI ({ (BlaseballRecorder.listen st ev).1 with
          connect_attempts := (BlaseballRecorder.listen st ev).1.connect_attempts + 1 } :
            RecorderState)
          ((ev.map Prod.fst).getLastD t) :=
        ⟨L.1.hstart, L.1.hsort, L.1.hub, L.1.hnn⟩
      have IH := ih { (BlaseballRecorder.listen st ev).1 with
          connect_attempts := (BlaseballRecorder.listen st ev).1.connect_attempts + 1 }
        ((ev.map Prod.fst).getLastD t) hI2 hc2
      have hstate : (BlaseballRecorder.recordLoop st (⟨ev, en⟩ :: rest)).state
          = (BlaseballRecorder.recordLoop { (BlaseballRecorder.listen st ev).1 with
              connect_attempts := (BlaseballRecorder.listen st ev).1.connect_attempts + 1 }
              rest).state := by
        cases en <;> simp only [BlaseballRecorder.recordLoop, if_pos h5]
      have hfiles : (BlaseballRecorder.recordLoop st (⟨ev, en⟩ :: rest)).files
          = (BlaseballRecorder.listen st ev).2
              ++ (BlaseballRecorder.recordLoop { (BlaseballRecorder.listen st ev).1 with
                  connect_attempts := (BlaseballRecorder.listen st ev).1.connect_attempts + 1 }
                  rest).files := by
        cases en <;> simp only [BlaseballRecorder.recordLoop, if_pos h5]
      rw [hstate, hfiles]
      refine ⟨IH.1, ?_, ?_, ?_, ?_, ?_⟩
      · intro f hf
        rw [List.mem_append] at hf
        rcases hf with hf | hf
        · exact L.2.1 f hf
        · exact IH.2.1 f hf
      · intro hz0 f hf
        rw [List.mem_append] at hf
        rcases hf with hf | hf
        · exact L.2.2.1 hz0 f hf
        · exact IH.2.2.1 (L.2.2.2.2.2 hz0) f hf
      · rcases hfl : (BlaseballRecorder.listen st ev).2 with _ | ⟨f0, fs⟩
        · intro f hf
          rw [List.nil_append] at hf
          exact IH.2.2.2.1 f hf
        · intro f hf
          rw [List.cons_append, List.tail_cons] at hf
          rw [List.mem_append] at hf
          rcases hf with hf | hf
          · exact L.2.2.2.1 f (by rw [hfl]; exact hf)
          · have hz1 : headZero (BlaseballRecorder.listen st ev).1.messages :=
              L.2.2.2.2.1 (by rw [hfl]; exact List.cons_ne_nil f0 fs)
            exact IH.2.2.1 hz1 f hf
      · intro hne
        rcases hfl : (BlaseballRecorder.listen st ev).2 with _ | ⟨f0, fs⟩
        · rw [hfl, List.nil_append] at hne
          exact IH.2.2.2.2.1 hne
        · have hz1 : headZero (BlaseballRecorder.listen st ev).1.messages :=
            L.2.2.2.2.1 (by rw [hfl]; exact List.cons_ne_nil f0 fs)
          exact IH.2.2.2.2.2 hz1
      · intro hz0
        exact IH.2.2.2.2.2 (L.2.2.2.2.2 hz0)
    · have heq : BlaseballRecorder.recordLoop st (⟨ev, en⟩ :: rest)
          = ⟨st, [], [], 0⟩ := by
        cases en <;> simp only [BlaseballRecorder.recordLoop, if_neg h5]
      rw [heq]
      refine ⟨⟨t, hI⟩, ?_, ?_, ?_, ?_, fun h => h⟩
      · intro f hf
        exact absurd hf (by simp)
      · intro _ f hf
        exact absurd hf (by simp)
      · intro f hf
        exact absurd hf (by simp)
      · intro h
        exact absurd rfl h

/-- C3 counterexample: a run whose first frame arrives one second after
the recorder's start instant produces a segment whose first entry has
offset 1, not 0.0 — the initial segment is never re-based, so the claim
that every segment's first offset is exactly 0.0 fails. -/
theorem c3_counterexample :
    (BlaseballRecorder.record (RecorderState.init "f" false 0 0) 0
        [⟨[(1, sampleFrameA)], .clean⟩]).files
      = [⟨"f.stream", [(1, sampleFrameA)]⟩] ∧ ((1 : ℚ) ≠ 0) := by
  constructor
  · simp +decide [BlaseballRecorder.record, BlaseballRecorder.recordLoop,
      BlaseballRecorder.listen, BlaseballRecorder.listenStep, BlaseballRecorder.write,
      BlaseballRecorder.writeFile, RecorderState.init]
  · norm_num

/-- C3 (amended): for every run of the Recorder over frames with
non-decreasing arrival instants not before the start instant, every
written segment's offsets are non-decreasing and nonnegative, and every
segment AFTER THE FIRST — i.e. every segment opened by a day-mode
rotation — starts at offset exactly 0.0; the initial segment's first
offset is the (nonnegative) delay between the recorder's start instant
and its first accepted frame, not necessarily 0.0. -/
theorem c3_theorem :
    ∀ (fp : String) (dm : Bool) (t0 : ℚ) (script : List BlaseballRecorder.Connection),
      List.Chain' (· ≤ ·) (t0 :: scriptTimes script) →
      (∀ f ∈ (BlaseballRecorder.record (RecorderState.init fp dm 0 t0) t0 script).files,
        List.Chain' (· ≤ ·) (offsetsOf f.entries) ∧ ∀ o ∈ offsetsOf f.entries, 0 ≤ o) ∧
      (∀ f ∈ ((BlaseballRecorder.record (RecorderState.init fp dm 0 t0) t0 script).files).tail,
        (offsetsOf f.entries).head? = some 0) := by
  intro fp dm t0 script hch
  have hI0 : RecI { RecorderState.init fp dm 0 t0 with start_time := t0 } t0 := by
    refine ⟨le_refl t0, ?_, ?_, ?_⟩ <;>
      simp [RecorderState.init, offsetsOf, List.chain'_nil]
  have RL := recordLoop_spec script { RecorderState.init fp dm 0 t0 with start_time := t0 }
    t0 hI0 hch
  have heq : (BlaseballRecorder.record (RecorderState.init fp dm 0 t0) t0 script).files
      = (BlaseballRecorder.recordLoop
          { RecorderState.init fp dm 0 t0 with start_time := t0 } script).files
        ++ ((BlaseballRecorder.write
              (BlaseballRecorder.recordLoop
                { RecorderState.init fp dm 0 t0 with start_time := t0 } script).state
              (BlaseballRecorder.recordLoop
                { RecorderState.init fp dm 0 t0 with start_time := t0 } script).state.messages
              false).2).toList := rfl
  rw [heq]
  obtain ⟨⟨t2, hI2⟩, hgood, hhz, htail, hne, _⟩ := RL
  constructor
  · intro f hf
    rw [List.mem_append] at hf
    rcases hf with hf | hf
    · exact hgood f hf
    · rw [Option.mem_toList, Option.mem_def] at hf
      rw [write_entries_of_some hf]
      exact ⟨hI2.hsort, hI2.hnn⟩
  · rcases hfl : (BlaseballRecorder.recordLoop
        { RecorderState.init fp dm 0 t0 with start_time := t0 } script).files
        with _ | ⟨g, gs⟩
    · intro f hf
      rw [List.nil_append] at hf
      rcases hw : (BlaseballRecorder.write
          (BlaseballRecorder.recordLoop
            { RecorderState.init fp dm 0 t0 with start_time := t0 } script).state
          (BlaseballRecorder.recordLoop
            { RecorderState.init fp dm 0 t0 with start_time := t0 } script).state.messages
          false).2 with _ | f1
      · rw [hw] at hf
        exact absurd hf (by simp)
      · rw [hw] at hf
        exact absurd hf (by simp)
    · intro f hf
      rw [List.cons_append, List.tail_cons, List.mem_append] at hf
      rcases hf with hf | hf
      · exact htail f (by rw [hfl]; exact hf)
      · rw [Option.mem_toList, Option.mem_def] at hf
        have hz : headZero (BlaseballRecorder.recordLoop
            { RecorderState.init fp dm 0 t0 with start_time := t0 } script).state.messages :=
          hne (by rw [hfl]; exact List.cons_ne_nil g gs)
        rw [write_entries_of_some hf]
        exact hz

/-- C3 witness: the amended invariant evaluated on the one-frame run of
the counterexample. -/
theorem c3_witness :
    List.Chain' (· ≤ ·) ((0 : ℚ) :: scriptTimes [⟨[(1, sampleFrameA)], .clean⟩]) ∧
    ((∀ f ∈ (BlaseballRecorder.record (RecorderState.init "f" false 0 0) 0
        [⟨[(1, sampleFrameA)], .clean⟩]).files,
      List.Chain' (· ≤ ·) (offsetsOf f.entries) ∧ ∀ o ∈ offsetsOf f.entries, 0 ≤ o) ∧
    (∀ f ∈ ((BlaseballRecorder.record (RecorderState.init "f" false 0 0) 0
        [⟨[(1, sampleFrameA)], .clean⟩]).files).tail,
      (offsetsOf f.entries).head? = some 0)) :=
  have hch : List.Chain' (· ≤ ·) ((0 : ℚ) :: scriptTimes [⟨[(1, sampleFrameA)], .clean⟩]) := by
    norm_num [scriptTimes, List.chain'_cons, List.chain'_singleton]
  ⟨hch, c3_theorem "f" false 0 [⟨[(1, sampleFrameA)], .clean⟩] hch⟩

/-- C7 counterexample: feeding day-3 frames (arriving at seconds 1 and 2)
and then a day-4 frame with `dayMode` on produces a first finalized
segment whose first entry has offset 1 — relative to the recording's
start instant — not 0.0, refuting the claim that EACH segment is re-based
to 0.0 at its first frame. -/
theorem c7_counterexample :
    (BlaseballRecorder.record (RecorderState.init "f" true 0 0) 0
        [⟨[(1, sampleFrameA), (2, sampleFrameB), (3, sampleFrameC)], .clean⟩]).files.head?
      = some ⟨"f.s1d3.stream", [(1, sampleFrameA), (2, sampleFrameB)]⟩ ∧
    ((1 : ℚ) ≠ 0) := by
  constructor
  · simp +decide [BlaseballRecorder.record, BlaseballRecorder.recordLoop,
      BlaseballRecorder.listen, BlaseballRecorder.listenStep, BlaseballRecorder.write,
      BlaseballRecorder.writeFile, RecorderState.init]
  · norm_num

/-- C7 (amended): with `dayMode` on, the first accepted frame seeds the
tracked `(season, day)` without rotating; a later accepted frame whose
day or season exceeds the tracked values finalizes the current segment by
invoking the writer on the buffered entries, resets the entry list to the
new frame at offset 0.0 and re-bases the segment start to the frame's
arrival instant. Feeding day-3 then day-4 frames hence yields two
finalized segments, the SECOND re-based to 0.0 at its first frame, while
the first segment's offsets stay relative to the recording's start
instant. -/
theorem c7_theorem :
    (∀ (st : RecorderState) (now : ℚ) (d : FrameData),
      ¬ some d.games = st.last_message → st.day_mode = true → st.previous_day < 0 →
      BlaseballRecorder.listenStep st now d
        = ({ st with
              connect_attempts := 0, previous_day := d.games.day,
              previous_season := d.games.season, last_message := some d.games,
              messages := st.messages ++ [(now - st.start_time, d)] }, none)) ∧
    (∀ (st : RecorderState) (now : ℚ) (d : FrameData),
      ¬ some d.games = st.last_message → st.day_mode = true → ¬ st.previous_day < 0 →
      (d.games.day > st.previous_day ∨ d.games.season > st.previous_season) →
      BlaseballRecorder.listenStep st now d
        = ({ (BlaseballRecorder.write { st with connect_attempts := 0 }
                st.messages false).1 with
                previous_day := d.games.day, previous_season := d.games.season,
                last_message := some d.games, messages := [((0 : ℚ), d)],
                start_time := now },
           (BlaseballRecorder.write { st with connect_attempts := 0 }
              st.messages false).2)) ∧
    ((BlaseballRecorder.record (RecorderState.init "f" true 0 0) 0
        [⟨[(1, sampleFrameA), (2, sampleFrameB), (3, sampleFrameC)], .clean⟩]).files
      = [⟨"f.s1d3.stream", [(1, sampleFrameA), (2, sampleFrameB)]⟩,
         ⟨"f.s1d4.stream", [(0, sampleFrameC)]⟩]) := by
  refine ⟨fun st now d h hdm hprev => listenStep_seed h hdm hprev,
    fun st now d h hdm hprev hgt => listenStep_rotate h hdm hprev hgt, ?_⟩
  simp +decide [BlaseballRecorder.record, BlaseballRecorder.recordLoop,
    BlaseballRecorder.listen, BlaseballRecorder.listenStep, BlaseballRecorder.write,
    BlaseballRecorder.writeFile, RecorderState.init]

/-- C7 witness: the seed branch and the rotation branch applied at a
concrete day-mode state. -/
theorem c7_witness :
    ((¬ some sampleFrameA.games = (RecorderState.init "f" true 0 0).last_message ∧
        (RecorderState.init "f" true 0 0).day_mode = true ∧
        (RecorderState.init "f" true 0 0).previous_day < 0) ∧
      BlaseballRecorder.listenStep (RecorderState.init "f" true 0 0) 1 sampleFrameA
        = ({ RecorderState.init "f" true 0 0 with
              connect_attempts := 0, previous_day := sampleFrameA.games.day,
              previous_season := sampleFrameA.games.season,
              last_message := some sampleFrameA.games,
              messages := (RecorderState.init "f" true 0 0).messages
                ++ [(1 - (RecorderState.init "f" true 0 0).start_time, sampleFrameA)] },
           none)) ∧
    ((¬ some sampleFrameC.games = skipState.last_message ∧ skipState.day_mode = true ∧
        ¬ skipState.previous_day < 0 ∧
        (sampleFrameC.games.day > skipState.previous_day ∨
          sampleFrameC.games.season > skipState.previous_season)) ∧
      BlaseballRecorder.listenStep skipState 7 sampleFrameC
        = ({ (BlaseballRecorder.write { skipState with connect_attempts := 0 }
                skipState.messages false).1 with
                previous_day := sampleFrameC.games.day,
                previous_season := sampleFrameC.games.season,
                last_message := some sampleFrameC.games,
                messages := [((0 : ℚ), sampleFrameC)], start_time := 7 },
           (BlaseballRecorder.write { skipState with connect_attempts := 0 }
              skipState.messages false).2)) :=
  ⟨⟨⟨by decide, rfl, by decide⟩,
      c7_theorem.1 (RecorderState.init "f" true 0 0) 1 sampleFrameA (by decide) rfl (by decide)⟩,
    ⟨⟨by decide, rfl, by decide, by decide⟩,
      c7_theorem.2.1 skipState 7 sampleFrameC (by decide) rfl (by decide) (by decide)⟩⟩
